import Mathlib

/-!
A shallow embedding of the `pallet-template` inventory-and-sales pallet
(`src/pallets/template/src/lib.rs`) from the PalletsStore repository.

Modelling conventions:
* `u64` and `u8` values are `Nat`; the unchecked `u64` additions used by the
  two id allocators (`product_id + 1`, `sale_code + 1`) are modelled with an
  explicit wrap `% 2^64` (`wrap64`), the semantics of release-mode Rust.
  The `checked_sub` / `checked_mul` / `checked_add` calls are modelled by
  `Option`-returning checked operations over the `u64` range.
* `Vec<u8>` byte strings (`name`, `seller`) are `List Nat`.
* The two `StorageMap`s and the two `StorageValue` counters become an explicit
  `PalletState` record; storage maps are association lists with
  replace-on-insert semantics exactly like `StorageMap::insert`.
* Each dispatchable body is a function `... → PalletState → Except Err PalletState`.
  FRAME executes every `#[pallet::call]` inside a transactional storage layer:
  when the body returns `Err`, all storage writes made by the call are rolled
  back (this is what the repository's own tests assert with `assert_noop!`).
  `dispatchExcept` models that layer: on error the pre-call state is kept.
* `deposit_event` is modelled by an `events` list in the state; a rolled-back
  call deposits nothing, as in FRAME.
* `ensure_signed` (caller authentication) is outside the modelled core: the
  spec lists origin verification as an external collaborator, and it has no
  effect on storage.
-/

/-- Error enum of the pallet (`Error<T>` in the source). -/
inductive Err where
  | productNotFound
  | saleNotFound
  | insufficientStock
  | invalidDate
  | overflow
deriving DecidableEq, Repr

/-- Product categories (`Category` in the source). -/
inductive Category where
  | electronic
  | food
  | clothing
  | misc
deriving DecidableEq, Repr

/-- Payment methods (`PaymentMethod` in the source). -/
inductive PaymentMethod where
  | credit
  | debit
  | pix
  | money
deriving DecidableEq, Repr

/-- A calendar date (`Date` in the source): `day`, `month` are `u8`, `year` is `u64`. -/
structure Date where
  day : Nat
  month : Nat
  year : Nat
deriving DecidableEq, Repr

/-- `Date::new`: returns `Err("Invalid date")` unless `1 <= day <= 31`,
`1 <= month <= 12` and `year >= 1000`. -/
def Date.new (day month year : Nat) : Except String Date :=
  if ¬(1 ≤ day ∧ day ≤ 31) ∨ ¬(1 ≤ month ∧ month ≤ 12) ∨ year < 1000 then
    .error "Invalid date"
  else
    .ok { day := day, month := month, year := year }

/-- One requested line of a sale (`ItemSale` in the source). -/
structure ItemSale where
  product_id : Nat
  amount : Nat
deriving DecidableEq, Repr

/-- A catalog product (`Product` in the source). -/
structure Product where
  name : List Nat
  id : Nat
  stock : Nat
  price : Nat
  amount_to_restock : Nat
  restock_date : Date
  category : Category
deriving DecidableEq, Repr

/-- A recorded sale (`Sale` in the source). -/
structure Sale where
  seller : List Nat
  code : Nat
  products : List Nat
  value : Nat
  date : Date
  payment_method : PaymentMethod
deriving DecidableEq, Repr

/-- Events deposited by the pallet (`Event<T>` in the source). -/
inductive Event where
  | productAdded (id : Nat)
  | productGotten (product : Product)
  | productsToRestock (products : List Product)
  | productsListed (products : List Product)
  | productUpdated (id : Nat)
  | productRemoved (id : Nat)
  | saleRegistered (code : Nat)
  | saleGotten (sale : Sale)
  | salesListed (sales : List Sale)
  | saleUpdated (code : Nat)
  | saleRemoved (code : Nat)
deriving DecidableEq, Repr

/-- The `u64` modulus. -/
def U64MOD : Nat := 2 ^ 64

/-- Wrapping `u64` arithmetic: a plain (unchecked) `u64` operation reduces
its mathematical result modulo `2^64`. -/
def wrap64 (n : Nat) : Nat := n % U64MOD

/-- `u64::checked_sub`: `none` exactly when the subtrahend exceeds the minuend. -/
def checkedSub (a b : Nat) : Option Nat :=
  if b ≤ a then some (a - b) else none

/-- `u64::checked_mul`: `none` exactly when the product leaves the `u64` range. -/
def checkedMul (a b : Nat) : Option Nat :=
  if a * b < U64MOD then some (a * b) else none

/-- `u64::checked_add`: `none` exactly when the sum leaves the `u64` range. -/
def checkedAdd (a b : Nat) : Option Nat :=
  if a + b < U64MOD then some (a + b) else none

/-- Lookup in an association-list storage map (`StorageMap::get`). -/
def mapGet {α : Type} (m : List (Nat × α)) (k : Nat) : Option α :=
  match m with
  | [] => none
  | (k', v) :: rest => if k' = k then some v else mapGet rest k

/-- Insert into an association-list storage map, replacing any existing
binding for the key (`StorageMap::insert`). -/
def mapInsert {α : Type} (m : List (Nat × α)) (k : Nat) (v : α) : List (Nat × α) :=
  match m with
  | [] => [(k, v)]
  | (k', v') :: rest => if k' = k then (k, v) :: rest else (k', v') :: mapInsert rest k v

/-- Delete a key from an association-list storage map (`StorageMap::remove`). -/
def mapRemove {α : Type} (m : List (Nat × α)) (k : Nat) : List (Nat × α) :=
  m.filter (fun kv => kv.1 ≠ k)

/-- Key membership (`StorageMap::contains_key`). -/
def mapContains {α : Type} (m : List (Nat × α)) (k : Nat) : Bool :=
  (mapGet m k).isSome

/-- The pallet's entire storage: the two maps (`Products`, `Sales`), the two
allocator counters (`NextProductId`, `NextSaleCode`, `ValueQuery` default 0),
plus the deposited-event log. -/
structure PalletState where
  products : List (Nat × Product)
  sales : List (Nat × Sale)
  nextProductId : Nat
  nextSaleCode : Nat
  events : List Event
deriving DecidableEq, Repr

/-- Genesis state: empty maps, both counters at their `ValueQuery` default 0. -/
def initState : PalletState :=
  { products := [], sales := [], nextProductId := 0, nextSaleCode := 0, events := [] }

/-- Deposit one event (`Self::deposit_event`). -/
def pushEvent (e : Event) (s : PalletState) : PalletState :=
  { s with events := s.events ++ [e] }

/-- `add_product`: validates the date, stores the product under the next free
id and advances the allocator with an unchecked `u64` increment. -/
def add_product (name : List Nat) (stock price amount_to_restock : Nat)
    (restock_date : Date) (category : Category) (s : PalletState) :
    Except Err PalletState :=
  match Date.new restock_date.day restock_date.month restock_date.year with
  | .error _ => .error .invalidDate
  | .ok validated =>
    let product_id := s.nextProductId
    let product : Product :=
      { name := name, id := product_id, stock := stock, price := price,
        amount_to_restock := amount_to_restock, restock_date := validated,
        category := category }
    .ok (pushEvent (.productAdded product_id)
      { s with products := mapInsert s.products product_id product,
               nextProductId := wrap64 (product_id + 1) })

/-- `get_product`: deposits the product as an event or fails with `ProductNotFound`. -/
def get_product (id : Nat) (s : PalletState) : Except Err PalletState :=
  match mapGet s.products id with
  | some product => .ok (pushEvent (.productGotten product) s)
  | none => .error .productNotFound

/-- The filter computed by `list_products_to_restock`: products whose stock is
strictly below their restock threshold, in storage-iteration order. -/
def listToRestock (s : PalletState) : List Product :=
  s.products.filterMap (fun kv =>
    if kv.2.stock < kv.2.amount_to_restock then some kv.2 else none)

/-- `list_products_to_restock`: read-only scan, deposits the filtered list. -/
def list_products_to_restock (s : PalletState) : Except Err PalletState :=
  .ok (pushEvent (.productsToRestock (listToRestock s)) s)

/-- `list_all_products`: deposits every stored product. -/
def list_all_products (s : PalletState) : Except Err PalletState :=
  .ok (pushEvent (.productsListed (s.products.map (fun kv => kv.2))) s)

/-- `update_product`: read-modify-write of the optional fields, re-validating
a supplied restock date. -/
def update_product (id : Nat) (name : Option (List Nat))
    (stock price amount_to_restock : Option Nat) (restock_date : Option Date)
    (category : Option Category) (s : PalletState) : Except Err PalletState :=
  match mapGet s.products id with
  | none => .error .productNotFound
  | some product =>
    let product := match name with
      | some new_name => { product with name := new_name }
      | none => product
    let product := match stock with
      | some new_stock => { product with stock := new_stock }
      | none => product
    let product := match price with
      | some new_price => { product with price := new_price }
      | none => product
    let product := match amount_to_restock with
      | some new_amount => { product with amount_to_restock := new_amount }
      | none => product
    match restock_date with
    | some nd =>
      match Date.new nd.day nd.month nd.year with
      | .error _ => .error .invalidDate
      | .ok new_date =>
        let product := { product with restock_date := new_date }
        let product := match category with
          | some new_category => { product with category := new_category }
          | none => product
        .ok (pushEvent (.productUpdated id)
          { s with products := mapInsert s.products id product })
    | none =>
      let product := match category with
        | some new_category => { product with category := new_category }
        | none => product
      .ok (pushEvent (.productUpdated id)
        { s with products := mapInsert s.products id product })

/-- `remove_product`: deletes an existing product or fails with `ProductNotFound`. -/
def remove_product (id : Nat) (s : PalletState) : Except Err PalletState :=
  if mapContains s.products id then
    .ok (pushEvent (.productRemoved id) { s with products := mapRemove s.products id })
  else
    .error .productNotFound

/-- The per-line loop of `register_sale`, threading the products map, the
de-duplicated product-id list and the running total. Each line looks the
product up in the threaded map (so a repeated id sees the stock already
decremented by the earlier line), decrements stock with `checked_sub`,
writes the product back, then accumulates `price * amount` with
`checked_mul` / `checked_add`. -/
def processItems (items : List ItemSale) (prods : List (Nat × Product))
    (sale_products : List Nat) (total_value : Nat) :
    Except Err (List (Nat × Product) × List Nat × Nat) :=
  match items with
  | [] => .ok (prods, sale_products, total_value)
  | item :: rest =>
    match mapGet prods item.product_id with
    | none => .error .productNotFound
    | some product =>
      match checkedSub product.stock item.amount with
      | none => .error .insufficientStock
      | some new_stock =>
        let product := { product with stock := new_stock }
        let prods := mapInsert prods item.product_id product
        let sale_products :=
          if sale_products.contains item.product_id then sale_products
          else sale_products ++ [item.product_id]
        match checkedMul product.price item.amount with
        | none => .error .overflow
        | some subtotal =>
          match checkedAdd total_value subtotal with
          | none => .error .overflow
          | some total_value => processItems rest prods sale_products total_value

/-- `register_sale`: processes every line, then stores the new `Sale` under
the next free code (with the hard-coded date `Date::new(3, 2, 2025).unwrap()`)
and advances the code allocator with an unchecked `u64` increment. -/
def register_sale (seller : List Nat) (products : List ItemSale)
    (payment_method : PaymentMethod) (s : PalletState) : Except Err PalletState :=
  match processItems products s.products [] 0 with
  | .error e => .error e
  | .ok (prods, sale_products, total_value) =>
    let sale_code := s.nextSaleCode
    let sale : Sale :=
      { seller := seller, code := sale_code, products := sale_products,
        value := total_value, date := { day := 3, month := 2, year := 2025 },
        payment_method := payment_method }
    .ok (pushEvent (.saleRegistered sale_code)
      { s with products := prods,
               sales := mapInsert s.sales sale_code sale,
               nextSaleCode := wrap64 (sale_code + 1) })

/-- `get_sale`: deposits the sale as an event or fails with `SaleNotFound`. -/
def get_sale (code : Nat) (s : PalletState) : Except Err PalletState :=
  match mapGet s.sales code with
  | some sale => .ok (pushEvent (.saleGotten sale) s)
  | none => .error .saleNotFound

/-- `list_all_sales`: deposits every stored sale. -/
def list_all_sales (s : PalletState) : Except Err PalletState :=
  .ok (pushEvent (.salesListed (s.sales.map (fun kv => kv.2))) s)

/-- `update_sale`: read-modify-write of the optional `seller`, `date` and
`payment_method` fields, re-validating a supplied date. `products` and
`value` have no update path. -/
def update_sale (code : Nat) (seller : Option (List Nat)) (date : Option Date)
    (payment_method : Option PaymentMethod) (s : PalletState) :
    Except Err PalletState :=
  match mapGet s.sales code with
  | none => .error .saleNotFound
  | some sale =>
    let sale := match seller with
      | some new_seller => { sale with seller := new_seller }
      | none => sale
    match date with
    | some nd =>
      match Date.new nd.day nd.month nd.year with
      | .error _ => .error .invalidDate
      | .ok new_date =>
        let sale := { sale with date := new_date }
        let sale := match payment_method with
          | some new_pm => { sale with payment_method := new_pm }
          | none => sale
        .ok (pushEvent (.saleUpdated code) { s with sales := mapInsert s.sales code sale })
    | none =>
      let sale := match payment_method with
        | some new_pm => { sale with payment_method := new_pm }
        | none => sale
      .ok (pushEvent (.saleUpdated code) { s with sales := mapInsert s.sales code sale })

/-- `remove_sale`: deletes an existing sale or fails with `SaleNotFound`. -/
def remove_sale (code : Nat) (s : PalletState) : Except Err PalletState :=
  if mapContains s.sales code then
    .ok (pushEvent (.saleRemoved code) { s with sales := mapRemove s.sales code })
  else
    .error .saleNotFound

/-- FRAME's transactional dispatch of one call: a body that returns `Err` has
every one of its storage writes (and events) rolled back, so the observable
post-state of a failed call is the pre-call state. -/
def dispatchExcept (f : PalletState → Except Err PalletState) (s : PalletState) :
    PalletState :=
  match f s with
  | .ok s' => s'
  | .error _ => s

/-- One pallet call together with its arguments. -/
inductive Op where
  | addProduct (name : List Nat) (stock price amount_to_restock : Nat)
      (restock_date : Date) (category : Category)
  | getProduct (id : Nat)
  | listProductsToRestock
  | listAllProducts
  | updateProduct (id : Nat) (name : Option (List Nat))
      (stock price amount_to_restock : Option Nat) (restock_date : Option Date)
      (category : Option Category)
  | removeProduct (id : Nat)
  | registerSale (seller : List Nat) (products : List ItemSale)
      (payment_method : PaymentMethod)
  | getSale (code : Nat)
  | listAllSales
  | updateSale (code : Nat) (seller : Option (List Nat)) (date : Option Date)
      (payment_method : Option PaymentMethod)
  | removeSale (code : Nat)
deriving DecidableEq, Repr

/-- The body a call runs. -/
def applyOp (op : Op) : PalletState → Except Err PalletState :=
  match op with
  | .addProduct name stock price amount_to_restock restock_date category =>
    add_product name stock price amount_to_restock restock_date category
  | .getProduct id => get_product id
  | .listProductsToRestock => list_products_to_restock
  | .listAllProducts => list_all_products
  | .updateProduct id name stock price amount_to_restock restock_date category =>
    update_product id name stock price amount_to_restock restock_date category
  | .removeProduct id => remove_product id
  | .registerSale seller products payment_method =>
    register_sale seller products payment_method
  | .getSale code => get_sale code
  | .listAllSales => list_all_sales
  | .updateSale code seller date payment_method =>
    update_sale code seller date payment_method
  | .removeSale code => remove_sale code

/-- Transactional dispatch of one call. -/
def dispatchOp (op : Op) (s : PalletState) : PalletState :=
  dispatchExcept (applyOp op) s

/-- Run a sequence of calls, each dispatched transactionally. -/
def run (s : PalletState) (ops : List Op) : PalletState :=
  ops.foldl (fun s op => dispatchOp op s) s

/-- The product ids assigned so far, read off the `ProductAdded` events in
deposit order. -/
def productAddedIds (s : PalletState) : List Nat :=
  s.events.filterMap (fun e =>
    match e with
    | .productAdded id => some id
    | _ => none)

/-- The sale codes assigned so far, read off the `SaleRegistered` events in
deposit order. -/
def saleRegisteredCodes (s : PalletState) : List Nat :=
  s.events.filterMap (fun e =>
    match e with
    | .saleRegistered code => some code
    | _ => none)

/-- Allocator bookkeeping invariant: after any run, each counter equals the
(wrapped) count of ids it has handed out, and the handed-out ids are the
naturals below that count, each reduced modulo `2^64` by the wrapping
increment. -/
def AllocInv (s : PalletState) : Prop :=
  ∃ n m : Nat,
    s.nextProductId = wrap64 n ∧ productAddedIds s = (List.range n).map wrap64 ∧
    s.nextSaleCode = wrap64 m ∧ saleRegisteredCodes s = (List.range m).map wrap64

/-- A sample product for concrete test states. -/
def mkProduct (id stock price amount_to_restock : Nat) : Product :=
  { name := [], id := id, stock := stock, price := price,
    amount_to_restock := amount_to_restock,
    restock_date := { day := 1, month := 1, year := 2023 },
    category := Category.electronic }

/-- Concrete state with one product (id 0) whose stock is 1. -/
def exState1 : PalletState :=
  { products := [(0, mkProduct 0 1 50 20)], sales := [],
    nextProductId := 1, nextSaleCode := 0, events := [Event.productAdded 0] }

/-- Concrete state with one product (id 0) whose stock is 10 and price 50. -/
def exState10 : PalletState :=
  { products := [(0, mkProduct 0 10 50 20)], sales := [],
    nextProductId := 1, nextSaleCode := 0, events := [Event.productAdded 0] }

/-- Concrete state with one product strictly below its restock threshold and
one exactly at it. -/
def exRestockState : PalletState :=
  { products := [(0, mkProduct 0 5 50 10), (1, mkProduct 1 10 50 10)], sales := [],
    nextProductId := 2, nextSaleCode := 0,
    events := [Event.productAdded 0, Event.productAdded 1] }

/-- A sample stored sale for concrete test states. -/
def exSale : Sale :=
  { seller := [1], code := 0, products := [0], value := 100,
    date := { day := 3, month := 2, year := 2025 },
    payment_method := PaymentMethod.credit }

/-- Concrete state with one sale stored under code 0. -/
def exSaleState : PalletState :=
  { products := [], sales := [(0, exSale)],
    nextProductId := 0, nextSaleCode := 1, events := [Event.saleRegistered 0] }

/-- A concrete always-successful `add_product` call. -/
def exAddOp : Op :=
  Op.addProduct [] 5 50 10 { day := 1, month := 1, year := 2023 } Category.electronic

/-- A concrete always-successful empty `register_sale` call. -/
def exRegisterOp : Op :=
  Op.registerSale [] [] PaymentMethod.credit

/-- The state after registering an empty sale on `exState1`. -/
def exState1Sold : PalletState :=
  { products := [(0, mkProduct 0 1 50 20)],
    sales := [(0, { seller := [1], code := 0, products := [], value := 0,
                    date := { day := 3, month := 2, year := 2025 },
                    payment_method := PaymentMethod.credit })],
    nextProductId := 1, nextSaleCode := 1,
    events := [Event.productAdded 0, Event.saleRegistered 0] }

/-- The state after `update_sale(0, Some([2]), Some((1,1,2024)), Some(Debit))`
on `exSaleState`. -/
def exSaleStateUpdated : PalletState :=
  { products := [],
    sales := [(0, { seller := [2], code := 0, products := [0], value := 100,
                    date := { day := 1, month := 1, year := 2024 },
                    payment_method := PaymentMethod.debit })],
    nextProductId := 0, nextSaleCode := 1,
    events := [Event.saleRegistered 0, Event.saleUpdated 0] }

/-- The state after `add_product([2], 7, 30, 5, (1,1,2023), Food)` on `exState1`. -/
def exState1Added : PalletState :=
  { products := [(0, mkProduct 0 1 50 20),
      (1, { name := [2], id := 1, stock := 7, price := 30, amount_to_restock := 5,
            restock_date := { day := 1, month := 1, year := 2023 },
            category := Category.food })],
    sales := [], nextProductId := 2, nextSaleCode := 0,
    events := [Event.productAdded 0, Event.productAdded 1] }

/-- The state after `remove_product(0)` on `exState1`. -/
def exState1Removed : PalletState :=
  { products := [], sales := [], nextProductId := 1, nextSaleCode := 0,
    events := [Event.productAdded 0, Event.productRemoved 0] }

theorem mapGet_mapInsert_self {α : Type} (m : List (Nat × α)) (k : Nat) (v : α) :
    mapGet (mapInsert m k v) k = some v := by
  induction m with
  | nil => simp [mapInsert, mapGet]
  | cons kv rest ih =>
    obtain ⟨k', v'⟩ := kv
    by_cases h : k' = k
    · simp [mapInsert, h, mapGet]
    · simp [mapInsert, h, mapGet, ih]

theorem mapGet_mapInsert_ne {α : Type} (m : List (Nat × α)) (k k' : Nat) (v : α)
    (h : k' ≠ k) : mapGet (mapInsert m k v) k' = mapGet m k' := by
  induction m with
  | nil => simp [mapInsert, mapGet, Ne.symm h]
  | cons kv rest ih =>
    obtain ⟨k'', v''⟩ := kv
    by_cases h2 : k'' = k
    · subst h2
      simp [mapInsert, mapGet, Ne.symm h]
    · simp [mapInsert, h2, mapGet, ih]

theorem mapGet_mapRemove_self {α : Type} (m : List (Nat × α)) (k : Nat) :
    mapGet (mapRemove m k) k = none := by
  induction m with
  | nil => rfl
  | cons kv rest ih =>
    obtain ⟨k', v'⟩ := kv
    by_cases h : k' = k
    · simpa [mapRemove, List.filter_cons, h] using ih
    · simpa [mapRemove, List.filter_cons, h, mapGet] using ih

/-- C4: `Date::new(day, month, year)` succeeds if and only if
`1 <= day <= 31`, `1 <= month <= 12` and `year >= 1000`; otherwise it is
rejected with the invalid-date error. No day-of-month or leap-year
cross-validation is performed. -/
theorem date_new_valid_iff : ∀ day month year : Nat,
    ((∃ d, Date.new day month year = Except.ok d) ↔
      (1 ≤ day ∧ day ≤ 31 ∧ 1 ≤ month ∧ month ≤ 12 ∧ 1000 ≤ year)) ∧
    (¬(1 ≤ day ∧ day ≤ 31 ∧ 1 ≤ month ∧ month ≤ 12 ∧ 1000 ≤ year) →
      Date.new day month year = Except.error "Invalid date") := by
  intro day month year
  unfold Date.new
  split_ifs with h
  · refine ⟨⟨?_, ?_⟩, fun _ => rfl⟩
    · rintro ⟨d, hd⟩
      exact hd.elim
    · intro hc
      exfalso
      omega
  · refine ⟨⟨fun _ => by omega, fun _ => ⟨_, rfl⟩⟩, fun hc => ?_⟩
    exfalso
    omega

/-- C4 witness: `Date::new(32, 10, 2012)` fails with the invalid-date error
and `Date::new(1, 1, 2023)` succeeds. -/
theorem date_new_valid_iff_witness :
    Date.new 32 10 2012 = Except.error "Invalid date" ∧
    (∃ d, Date.new 1 1 2023 = Except.ok d) :=
  ⟨(date_new_valid_iff 32 10 2012).2 (by decide),
   (date_new_valid_iff 1 1 2023).1.mpr (by decide)⟩

/-- C5: a product appears in the restock query's result if and only if it is
stored and its stock is strictly below its restock threshold; the query's
only effect is depositing the result as an event — products, sales and both
counters are untouched. -/
theorem list_to_restock_spec : ∀ (s : PalletState) (p : Product),
    (p ∈ listToRestock s ↔
      (p ∈ s.products.map (fun kv => kv.2) ∧ p.stock < p.amount_to_restock)) ∧
    list_products_to_restock s =
      Except.ok { s with events := s.events ++ [Event.productsToRestock (listToRestock s)] } := by
  intro s p
  constructor
  · simp only [listToRestock, List.mem_filterMap, List.mem_map]
    constructor
    · rintro ⟨kv, hkv, hif⟩
      by_cases hc : kv.2.stock < kv.2.amount_to_restock
      · rw [if_pos hc] at hif
        exact ⟨⟨kv, hkv, Option.some.inj hif⟩, Option.some.inj hif ▸ hc⟩
      · rw [if_neg hc] at hif
        exact Option.noConfusion hif
    · rintro ⟨⟨kv, hkv, rfl⟩, hlt⟩
      exact ⟨kv, hkv, if_pos hlt⟩
  · rfl

/-- C5 witness: in `exRestockState`, the product with stock 5 and threshold 10
is flagged, while the product with stock 10 exactly at threshold 10 is not. -/
theorem list_to_restock_spec_witness :
    mkProduct 0 5 50 10 ∈ listToRestock exRestockState ∧
    mkProduct 1 10 50 10 ∉ listToRestock exRestockState :=
  ⟨(list_to_restock_spec exRestockState (mkProduct 0 5 50 10)).1.mpr
     ⟨by decide, by decide⟩,
   fun hmem =>
     absurd ((list_to_restock_spec exRestockState (mkProduct 1 10 50 10)).1.mp hmem).2
       (by decide)⟩

/-- C9: a `register_sale` call with an empty line list always succeeds; it
stores a sale with an empty products list and value 0, leaves the product
map (hence every stock) untouched and advances the sale-code allocator by
one (the wrapping increment is an actual `+ 1` whenever the counter is below
`u64::MAX`). -/
theorem register_sale_empty : ∀ (seller : List Nat) (pm : PaymentMethod) (s : PalletState),
    register_sale seller [] pm s =
      Except.ok { s with
        sales := mapInsert s.sales s.nextSaleCode
          { seller := seller, code := s.nextSaleCode, products := [], value := 0,
            date := { day := 3, month := 2, year := 2025 }, payment_method := pm },
        nextSaleCode := wrap64 (s.nextSaleCode + 1),
        events := s.events ++ [Event.saleRegistered s.nextSaleCode] } ∧
    (s.nextSaleCode < U64MOD - 1 → wrap64 (s.nextSaleCode + 1) = s.nextSaleCode + 1) := by
  intro seller pm s
  constructor
  · rfl
  · intro h
    have hm : U64MOD = 18446744073709551616 := by norm_num [U64MOD]
    rw [hm] at h
    simp only [wrap64, hm]
    omega

/-- C9 witness: the empty sale on the concrete state `exState1` yields the
stored sale `{products := [], value := 0}` and counter 1. -/
theorem register_sale_empty_witness :
    register_sale [1] [] PaymentMethod.credit exState1 =
      Except.ok { exState1 with
        sales := mapInsert exState1.sales exState1.nextSaleCode
          { seller := [1], code := exState1.nextSaleCode, products := [], value := 0,
            date := { day := 3, month := 2, year := 2025 },
            payment_method := PaymentMethod.credit },
        nextSaleCode := wrap64 (exState1.nextSaleCode + 1),
        events := exState1.events ++ [Event.saleRegistered exState1.nextSaleCode] } ∧
    wrap64 (exState1.nextSaleCode + 1) = exState1.nextSaleCode + 1 :=
  ⟨(register_sale_empty [1] PaymentMethod.credit exState1).1,
   (register_sale_empty [1] PaymentMethod.credit exState1).2 (by decide)⟩

/-- C8: every successful `register_sale` stores a sale whose date is the
hard-coded literal `Date::new(3, 2, 2025).unwrap()`, independent of every
input. -/
theorem register_sale_fixed_date :
    ∀ (seller : List Nat) (items : List ItemSale) (pm : PaymentMethod)
      (s s' : PalletState),
    register_sale seller items pm s = Except.ok s' →
    ∃ sale, mapGet s'.sales s.nextSaleCode = some sale ∧
      sale.date = { day := 3, month := 2, year := 2025 } := by
  intro seller items pm s s' h
  unfold register_sale at h
  cases hp : processItems items s.products [] 0 with
  | error e =>
    rw [hp] at h
    exact Except.noConfusion h
  | ok triple =>
    obtain ⟨prods, sale_products, total_value⟩ := triple
    rw [hp] at h
    injection h with h
    subst h
    exact ⟨_, mapGet_mapInsert_self _ _ _, rfl⟩

/-- C8 witness: registering an empty sale on `exState1` stores a sale dated
(3, 2, 2025). -/
theorem register_sale_fixed_date_witness :
    ∃ sale, mapGet exState1Sold.sales exState1.nextSaleCode = some sale ∧
      sale.date = { day := 3, month := 2, year := 2025 } :=
  register_sale_fixed_date [1] [] PaymentMethod.credit exState1 exState1Sold rfl

/-- C1: if any line of a `register_sale` fails (missing product, insufficient
stock, or an overflowing subtotal/total), the whole call returns that error
and, the dispatch of a `#[pallet::call]` being transactional, the observable
post-state is exactly the pre-call state: no partial stock decrement, no
stored sale, no allocator advancement. -/
theorem register_sale_atomic : ∀ (seller : List Nat) (items : List ItemSale)
    (pm : PaymentMethod) (s : PalletState) (e : Err),
    processItems items s.products [] 0 = Except.error e →
    register_sale seller items pm s = Except.error e ∧
    dispatchExcept (register_sale seller items pm) s = s := by
  intro seller items pm s e h
  have hr : register_sale seller items pm s = Except.error e := by
    unfold register_sale
    rw [h]
  exact ⟨hr, by simp [dispatchExcept, hr]⟩

/-- C1 witness: the spec's concrete scenario — one product with stock 1,
one line requesting amount 2 — fails with `InsufficientStock` and leaves the
whole stored state (stock still 1, no sale, counters) unchanged. -/
theorem register_sale_atomic_witness :
    register_sale [1] [⟨0, 2⟩] PaymentMethod.credit exState1 =
      Except.error Err.insufficientStock ∧
    dispatchExcept (register_sale [1] [⟨0, 2⟩] PaymentMethod.credit) exState1 = exState1 :=
  register_sale_atomic [1] [⟨0, 2⟩] PaymentMethod.credit exState1 Err.insufficientStock
    rfl

/-- C10: the two allocator advances are unchecked `u64` additions: on every
successful call the counter becomes `(counter + 1) mod 2^64`, and this is an
actual non-wrapping `+ 1` exactly under the precondition that the counter was
below `u64::MAX`. -/
theorem allocator_unchecked_advance : ∀ (s : PalletState),
    (∀ name stock price amount_to_restock restock_date category s',
      add_product name stock price amount_to_restock restock_date category s =
        Except.ok s' →
      s'.nextProductId = wrap64 (s.nextProductId + 1) ∧
      (s.nextProductId < U64MOD - 1 → s'.nextProductId = s.nextProductId + 1)) ∧
    (∀ seller items pm s',
      register_sale seller items pm s = Except.ok s' →
      s'.nextSaleCode = wrap64 (s.nextSaleCode + 1) ∧
      (s.nextSaleCode < U64MOD - 1 → s'.nextSaleCode = s.nextSaleCode + 1)) := by
  intro s
  have hm : U64MOD = 18446744073709551616 := by norm_num [U64MOD]
  constructor
  · intro name stock price atr rd cat s' h
    unfold add_product at h
    cases hd : Date.new rd.day rd.month rd.year with
    | error e =>
      rw [hd] at h
      exact Except.noConfusion h
    | ok d =>
      rw [hd] at h
      injection h with h
      subst h
      refine ⟨rfl, fun hlt => ?_⟩
      show wrap64 (s.nextProductId + 1) = s.nextProductId + 1
      rw [hm] at hlt
      simp only [wrap64, hm]
      omega
  · intro seller items pm s' h
    unfold register_sale at h
    cases hp : processItems items s.products [] 0 with
    | error e =>
      rw [hp] at h
      exact Except.noConfusion h
    | ok triple =>
      obtain ⟨prods, sale_products, total_value⟩ := triple
      rw [hp] at h
      injection h with h
      subst h
      refine ⟨rfl, fun hlt => ?_⟩
      show wrap64 (s.nextSaleCode + 1) = s.nextSaleCode + 1
      rw [hm] at hlt
      simp only [wrap64, hm]
      omega

/-- C10 witness: the successful empty sale on `exState1` takes the sale-code
counter from 0 to 1, the non-wrapping increment. -/
theorem allocator_unchecked_advance_witness :
    exState1Sold.nextSaleCode = wrap64 (exState1.nextSaleCode + 1) ∧
    exState1Sold.nextSaleCode = exState1.nextSaleCode + 1 :=
  ⟨((allocator_unchecked_advance exState1).2 [1] [] PaymentMethod.credit
      exState1Sold rfl).1,
   ((allocator_unchecked_advance exState1).2 [1] [] PaymentMethod.credit
      exState1Sold rfl).2 (by decide)⟩

/-- C7: after a successful `add_product`, looking the assigned id up (and
`get_product` on it) returns a product whose every field is exactly what was
supplied plus the assigned id; and after a successful `remove_product`,
`get_product` on that id fails with `ProductNotFound`. -/
theorem add_get_remove_roundtrip : ∀ (s : PalletState) (name : List Nat)
    (stock price amount_to_restock : Nat) (restock_date : Date) (category : Category),
    (∀ s', add_product name stock price amount_to_restock restock_date category s =
        Except.ok s' →
      mapGet s'.products s.nextProductId = some
        { name := name, id := s.nextProductId, stock := stock, price := price,
          amount_to_restock := amount_to_restock, restock_date := restock_date,
          category := category } ∧
      get_product s.nextProductId s' = Except.ok (pushEvent (Event.productGotten
        { name := name, id := s.nextProductId, stock := stock, price := price,
          amount_to_restock := amount_to_restock, restock_date := restock_date,
          category := category }) s')) ∧
    (∀ id s'', remove_product id s = Except.ok s'' →
      get_product id s'' = Except.error Err.productNotFound) := by
  intro s name stock price atr rd cat
  constructor
  · intro s' h
    unfold add_product at h
    cases hd : Date.new rd.day rd.month rd.year with
    | error e =>
      rw [hd] at h
      exact Except.noConfusion h
    | ok d =>
      rw [hd] at h
      have hdeq : d = rd := by
        unfold Date.new at hd
        split_ifs at hd with hcond
        injection hd with hd2
        exact hd2.symm
      rw [hdeq] at h
      injection h with h
      subst h
      have hget := mapGet_mapInsert_self s.products s.nextProductId
        { name := name, id := s.nextProductId, stock := stock, price := price,
          amount_to_restock := atr, restock_date := rd, category := cat }
      refine ⟨hget, ?_⟩
      unfold get_product
      simp only [pushEvent]
      rw [hget]
  · intro id s'' h
    unfold remove_product at h
    split_ifs at h with hc
    injection h with h
    subst h
    unfold get_product
    simp only [pushEvent]
    rw [mapGet_mapRemove_self]

/-- C7 witness: adding a product to `exState1` assigns id 1 and `get_product 1`
returns it with every supplied field; removing product 0 makes `get_product 0`
fail with `ProductNotFound`. -/
theorem add_get_remove_roundtrip_witness :
    (mapGet exState1Added.products exState1.nextProductId = some
        { name := [2], id := exState1.nextProductId, stock := 7, price := 30,
          amount_to_restock := 5,
          restock_date := { day := 1, month := 1, year := 2023 },
          category := Category.food } ∧
      get_product exState1.nextProductId exState1Added =
        Except.ok (pushEvent (Event.productGotten
          { name := [2], id := exState1.nextProductId, stock := 7, price := 30,
            amount_to_restock := 5,
            restock_date := { day := 1, month := 1, year := 2023 },
            category := Category.food }) exState1Added)) ∧
    get_product 0 exState1Removed = Except.error Err.productNotFound :=
  ⟨(add_get_remove_roundtrip exState1 [2] 7 30 5
      { day := 1, month := 1, year := 2023 } Category.food).1 exState1Added rfl,
   (add_get_remove_roundtrip exState1 [2] 7 30 5
      { day := 1, month := 1, year := 2023 } Category.food).2 0 exState1Removed rfl⟩

/-- C2: lines repeating the same product id are applied sequentially and
cumulatively: with stock 10 and two lines of amount 4 the sale succeeds,
final stock is 2, the sale's value is `price * 8` and its products list is
the de-duplicated `[pid]`. -/
theorem register_sale_cumulative : ∀ (s : PalletState) (pid : Nat) (p : Product)
    (seller : List Nat) (pm : PaymentMethod),
    mapGet s.products pid = some p →
    p.stock = 10 →
    p.price * 8 < U64MOD →
    ∃ s', register_sale seller [⟨pid, 4⟩, ⟨pid, 4⟩] pm s = Except.ok s' ∧
      mapGet s'.products pid = some { p with stock := 2 } ∧
      ∃ sale, mapGet s'.sales s.nextSaleCode = some sale ∧
        sale.value = p.price * 8 ∧ sale.products = [pid] := by
  intro s pid p seller pm h hstock h8
  have h4 : p.price * 4 < U64MOD :=
    lt_of_le_of_lt (Nat.mul_le_mul_left p.price (by norm_num)) h8
  have hsum : p.price * 4 + p.price * 4 < U64MOD := by omega
  have hpi : processItems [⟨pid, 4⟩, ⟨pid, 4⟩] s.products [] 0 =
      Except.ok
        (mapInsert (mapInsert s.products pid { p with stock := 6 }) pid
          { p with stock := 2 },
         [pid], p.price * 4 + p.price * 4) := by
    simp only [processItems, h, hstock, checkedSub, checkedMul, checkedAdd,
      mapGet_mapInsert_self, List.contains, List.elem]
    norm_num [h4, hsum]
  refine ⟨pushEvent (Event.saleRegistered s.nextSaleCode)
    { s with
      products := mapInsert (mapInsert s.products pid { p with stock := 6 }) pid
        { p with stock := 2 },
      sales := mapInsert s.sales s.nextSaleCode
        { seller := seller, code := s.nextSaleCode, products := [pid],
          value := p.price * 4 + p.price * 4,
          date := { day := 3, month := 2, year := 2025 }, payment_method := pm },
      nextSaleCode := wrap64 (s.nextSaleCode + 1) }, ?_, ?_, ?_⟩
  · unfold register_sale
    rw [hpi]
  · exact mapGet_mapInsert_self _ _ _
  · refine ⟨_, mapGet_mapInsert_self _ _ _, ?_, rfl⟩
    show p.price * 4 + p.price * 4 = p.price * 8
    ring

/-- C2 witness: the concrete state `exState10` (stock 10, price 50): two
lines of 4 yield stock 2, value 400 and products `[0]`. -/
theorem register_sale_cumulative_witness :
    ∃ s', register_sale [1] [⟨0, 4⟩, ⟨0, 4⟩] PaymentMethod.credit exState10 =
        Except.ok s' ∧
      mapGet s'.products 0 = some { mkProduct 0 10 50 20 with stock := 2 } ∧
      ∃ sale, mapGet s'.sales exState10.nextSaleCode = some sale ∧
        sale.value = (mkProduct 0 10 50 20).price * 8 ∧ sale.products = [0] :=
  register_sale_cumulative exState10 0 (mkProduct 0 10 50 20) [1]
    PaymentMethod.credit rfl rfl (by decide)

/-- C6: `update_sale` fails with `SaleNotFound` on an absent code; every
failure leaves the stored state untouched (transactional dispatch); a
supplied date is re-validated, failing with `InvalidDate` on an invalid
value; and on success only `seller`, `date` and `payment_method` are
overwritten (each only when supplied) — `products`, `value` and `code` of
the sale, every other sale, the product map and both counters are
unchanged. -/
theorem update_sale_frame : ∀ (s : PalletState) (code : Nat)
    (ns : Option (List Nat)) (nd : Option Date) (npm : Option PaymentMethod),
    (mapGet s.sales code = none →
      update_sale code ns nd npm s = Except.error Err.saleNotFound) ∧
    (∀ e, update_sale code ns nd npm s = Except.error e →
      dispatchExcept (update_sale code ns nd npm) s = s) ∧
    (∀ d sl, nd = some d → mapGet s.sales code = some sl →
      Date.new d.day d.month d.year = Except.error "Invalid date" →
      update_sale code ns nd npm s = Except.error Err.invalidDate) ∧
    (∀ s', update_sale code ns nd npm s = Except.ok s' →
      ∃ sl sl', mapGet s.sales code = some sl ∧ mapGet s'.sales code = some sl' ∧
        sl'.products = sl.products ∧ sl'.value = sl.value ∧ sl'.code = sl.code ∧
        sl'.seller = ns.getD sl.seller ∧
        sl'.payment_method = npm.getD sl.payment_method ∧
        ((nd = none ∧ sl'.date = sl.date) ∨
          (∃ d, nd = some d ∧ Date.new d.day d.month d.year = Except.ok sl'.date)) ∧
        s'.products = s.products ∧ s'.nextProductId = s.nextProductId ∧
        s'.nextSaleCode = s.nextSaleCode ∧
        (∀ c, c ≠ code → mapGet s'.sales c = mapGet s.sales c)) := by
  intro s code ns nd npm
  refine ⟨?_, ?_, ?_, ?_⟩
  · intro hnone
    unfold update_sale
    rw [hnone]
  · intro e he
    simp [dispatchExcept, he]
  · intro d sl hnd hsl hbad
    simp only [update_sale, hsl, hnd, hbad]
  · intro s' h
    cases hsl2 : mapGet s.sales code with
    | none =>
      unfold update_sale at h
      rw [hsl2] at h
      exact Except.noConfusion h
    | some sl =>
      cases nd with
      | none =>
        cases ns <;> cases npm <;>
          (simp only [update_sale, hsl2] at h
           injection h with h
           subst h
           exact ⟨sl, _, rfl, mapGet_mapInsert_self _ _ _, rfl, rfl, rfl, rfl, rfl,
             Or.inl ⟨rfl, rfl⟩, rfl, rfl, rfl,
             fun c hc => mapGet_mapInsert_ne _ _ _ _ hc⟩)
      | some d =>
        cases hvd : Date.new d.day d.month d.year with
        | error e2 =>
          simp only [update_sale, hsl2] at h
          rw [hvd] at h
          exact Except.noConfusion h
        | ok newd =>
          cases ns <;> cases npm <;>
            (simp only [update_sale, hsl2, hvd] at h
             injection h with h
             subst h
             exact ⟨sl, _, rfl, mapGet_mapInsert_self _ _ _, rfl, rfl, rfl, rfl, rfl,
               Or.inr ⟨d, rfl, hvd⟩, rfl, rfl, rfl,
               fun c hc => mapGet_mapInsert_ne _ _ _ _ hc⟩)

/-- C6 witness: on `exSaleState`, updating sale 0 with a new seller, a valid
new date and a new payment method patches exactly those three fields and
leaves `products`, `value`, `code`, the product map and the counters
unchanged. -/
theorem update_sale_frame_witness :
    ∃ sl sl', mapGet exSaleState.sales 0 = some sl ∧
      mapGet exSaleStateUpdated.sales 0 = some sl' ∧
      sl'.products = sl.products ∧ sl'.value = sl.value ∧ sl'.code = sl.code ∧
      sl'.seller = (some [2]).getD sl.seller ∧
      sl'.payment_method = (some PaymentMethod.debit).getD sl.payment_method ∧
      (((some { day := 1, month := 1, year := 2024 } : Option Date) = none ∧
          sl'.date = sl.date) ∨
        (∃ d, (some { day := 1, month := 1, year := 2024 } : Option Date) = some d ∧
          Date.new d.day d.month d.year = Except.ok sl'.date)) ∧
      exSaleStateUpdated.products = exSaleState.products ∧
      exSaleStateUpdated.nextProductId = exSaleState.nextProductId ∧
      exSaleStateUpdated.nextSaleCode = exSaleState.nextSaleCode ∧
      (∀ c, c ≠ 0 → mapGet exSaleStateUpdated.sales c = mapGet exSaleState.sales c) :=
  (update_sale_frame exSaleState 0 (some [2])
    (some { day := 1, month := 1, year := 2024 })
    (some PaymentMethod.debit)).2.2.2 exSaleStateUpdated rfl

theorem productAddedIds_push_other (s : PalletState) (e : Event)
    (he : ∀ id, e ≠ Event.productAdded id) :
    productAddedIds (pushEvent e s) = productAddedIds s := by
  unfold productAddedIds pushEvent
  rw [List.filterMap_append]
  cases e <;> first
    | exact absurd rfl (he _)
    | simp [List.filterMap]

theorem productAddedIds_push_added (s : PalletState) (id : Nat) :
    productAddedIds (pushEvent (Event.productAdded id) s) =
      productAddedIds s ++ [id] := by
  unfold productAddedIds pushEvent
  rw [List.filterMap_append]
  simp [List.filterMap]

theorem saleRegisteredCodes_push_other (s : PalletState) (e : Event)
    (he : ∀ c, e ≠ Event.saleRegistered c) :
    saleRegisteredCodes (pushEvent e s) = saleRegisteredCodes s := by
  unfold saleRegisteredCodes pushEvent
  rw [List.filterMap_append]
  cases e <;> first
    | exact absurd rfl (he _)
    | simp [List.filterMap]

theorem saleRegisteredCodes_push_reg (s : PalletState) (c : Nat) :
    saleRegisteredCodes (pushEvent (Event.saleRegistered c) s) =
      saleRegisteredCodes s ++ [c] := by
  unfold saleRegisteredCodes pushEvent
  rw [List.filterMap_append]
  simp [List.filterMap]

theorem allocInv_push_other (s : PalletState) (e : Event)
    (prods : List (Nat × Product)) (sales : List (Nat × Sale))
    (h : AllocInv s) (he1 : ∀ id, e ≠ Event.productAdded id)
    (he2 : ∀ c, e ≠ Event.saleRegistered c) :
    AllocInv (pushEvent e { s with products := prods, sales := sales }) := by
  obtain ⟨n, m, h1, h2, h3, h4⟩ := h
  refine ⟨n, m, h1, ?_, h3, ?_⟩
  · rw [productAddedIds_push_other _ _ he1]
    exact h2
  · rw [saleRegisteredCodes_push_other _ _ he2]
    exact h4

theorem allocInv_add (s : PalletState) (prods : List (Nat × Product))
    (h : AllocInv s) :
    AllocInv (pushEvent (Event.productAdded s.nextProductId)
      { s with products := prods,
               nextProductId := wrap64 (s.nextProductId + 1) }) := by
  obtain ⟨n, m, h1, h2, h3, h4⟩ := h
  refine ⟨n + 1, m, ?_, ?_, h3, ?_⟩
  · show wrap64 (s.nextProductId + 1) = wrap64 (n + 1)
    rw [h1]
    simp only [wrap64]
    exact Nat.mod_add_mod n U64MOD 1
  · rw [productAddedIds_push_added]
    show productAddedIds s ++ [s.nextProductId] = (List.range (n + 1)).map wrap64
    rw [h2, h1, List.range_succ, List.map_append]
    rfl
  · rw [saleRegisteredCodes_push_other _ _ (fun c hc => Event.noConfusion hc)]
    exact h4

theorem allocInv_register (s : PalletState) (prods : List (Nat × Product))
    (sale : Sale) (h : AllocInv s) :
    AllocInv (pushEvent (Event.saleRegistered s.nextSaleCode)
      { s with products := prods,
               sales := mapInsert s.sales s.nextSaleCode sale,
               nextSaleCode := wrap64 (s.nextSaleCode + 1) }) := by
  obtain ⟨n, m, h1, h2, h3, h4⟩ := h
  refine ⟨n, m + 1, h1, ?_, ?_, ?_⟩
  · rw [productAddedIds_push_other _ _ (fun id hid => Event.noConfusion hid)]
    exact h2
  · show wrap64 (s.nextSaleCode + 1) = wrap64 (m + 1)
    rw [h3]
    simp only [wrap64]
    exact Nat.mod_add_mod m U64MOD 1
  · rw [saleRegisteredCodes_push_reg]
    show saleRegisteredCodes s ++ [s.nextSaleCode] = (List.range (m + 1)).map wrap64
    rw [h4, h3, List.range_succ, List.map_append]
    rfl

theorem dispatchOp_AllocInv (op : Op) (s : PalletState) (h : AllocInv s) :
    AllocInv (dispatchOp op s) := by
  unfold dispatchOp dispatchExcept
  cases happ : applyOp op s with
  | error e => exact h
  | ok s' =>
    cases op with
    | addProduct name stock price atr rd cat =>
      simp only [applyOp, add_product] at happ
      cases hd : Date.new rd.day rd.month rd.year with
      | error e2 =>
        rw [hd] at happ
        exact Except.noConfusion happ
      | ok d =>
        rw [hd] at happ
        injection happ with happ
        subst happ
        exact allocInv_add s _ h
    | getProduct id =>
      simp only [applyOp, get_product] at happ
      cases hg : mapGet s.products id with
      | none =>
        rw [hg] at happ
        exact Except.noConfusion happ
      | some p =>
        rw [hg] at happ
        injection happ with happ
        subst happ
        exact allocInv_push_other s _ s.products s.sales h
          (fun id2 h2 => Event.noConfusion h2) (fun c h2 => Event.noConfusion h2)
    | listProductsToRestock =>
      simp only [applyOp, list_products_to_restock] at happ
      injection happ with happ
      subst happ
      exact allocInv_push_other s _ s.products s.sales h
        (fun id2 h2 => Event.noConfusion h2) (fun c h2 => Event.noConfusion h2)
    | listAllProducts =>
      simp only [applyOp, list_all_products] at happ
      injection happ with happ
      subst happ
      exact allocInv_push_other s _ s.products s.sales h
        (fun id2 h2 => Event.noConfusion h2) (fun c h2 => Event.noConfusion h2)
    | updateProduct id name stock price atr rdo cat =>
      cases hg : mapGet s.products id with
      | none =>
        simp only [applyOp, update_product] at happ
        rw [hg] at happ
        exact Except.noConfusion happ
      | some p =>
        cases rdo with
        | none =>
          simp only [applyOp, update_product, hg] at happ
          injection happ with happ
          subst happ
          exact allocInv_push_other s _ _ s.sales h
            (fun id2 h2 => Event.noConfusion h2) (fun c h2 => Event.noConfusion h2)
        | some nd =>
          cases hvd : Date.new nd.day nd.month nd.year with
          | error e2 =>
            simp only [applyOp, update_product, hg, hvd] at happ
            exact Except.noConfusion happ
          | ok newd =>
            simp only [applyOp, update_product, hg, hvd] at happ
            injection happ with happ
            subst happ
            exact allocInv_push_other s _ _ s.sales h
              (fun id2 h2 => Event.noConfusion h2) (fun c h2 => Event.noConfusion h2)
    | removeProduct id =>
      simp only [applyOp, remove_product] at happ
      split_ifs at happ with hc
      injection happ with happ
      subst happ
      exact allocInv_push_other s _ _ s.sales h
        (fun id2 h2 => Event.noConfusion h2) (fun c h2 => Event.noConfusion h2)
    | registerSale seller items pm =>
      simp only [applyOp, register_sale] at happ
      cases hp : processItems items s.products [] 0 with
      | error e2 =>
        rw [hp] at happ
        exact Except.noConfusion happ
      | ok triple =>
        obtain ⟨prods, sale_products, total_value⟩ := triple
        rw [hp] at happ
        injection happ with happ
        subst happ
        exact allocInv_register s _ _ h
    | getSale code =>
      simp only [applyOp, get_sale] at happ
      cases hg : mapGet s.sales code with
      | none =>
        rw [hg] at happ
        exact Except.noConfusion happ
      | some sl =>
        rw [hg] at happ
        injection happ with happ
        subst happ
        exact allocInv_push_other s _ s.products s.sales h
          (fun id2 h2 => Event.noConfusion h2) (fun c h2 => Event.noConfusion h2)
    | listAllSales =>
      simp only [applyOp, list_all_sales] at happ
      injection happ with happ
      subst happ
      exact allocInv_push_other s _ s.products s.sales h
        (fun id2 h2 => Event.noConfusion h2) (fun c h2 => Event.noConfusion h2)
    | updateSale code ns nd npm =>
      cases hg : mapGet s.sales code with
      | none =>
        simp only [applyOp, update_sale] at happ
        rw [hg] at happ
        exact Except.noConfusion happ
      | some sl =>
        cases nd with
        | none =>
          simp only [applyOp, update_sale, hg] at happ
          injection happ with happ
          subst happ
          exact allocInv_push_other s _ s.products _ h
            (fun id2 h2 => Event.noConfusion h2) (fun c h2 => Event.noConfusion h2)
        | some d =>
          cases hvd : Date.new d.day d.month d.year with
          | error e2 =>
            simp only [applyOp, update_sale, hg, hvd] at happ
            exact Except.noConfusion happ
          | ok newd =>
            simp only [applyOp, update_sale, hg, hvd] at happ
            injection happ with happ
            subst happ
            exact allocInv_push_other s _ s.products _ h
              (fun id2 h2 => Event.noConfusion h2) (fun c h2 => Event.noConfusion h2)
    | removeSale code =>
      simp only [applyOp, remove_sale] at happ
      split_ifs at happ with hc
      injection happ with happ
      subst happ
      exact allocInv_push_other s _ s.products _ h
        (fun id2 h2 => Event.noConfusion h2) (fun c h2 => Event.noConfusion h2)

theorem run_AllocInv (ops : List Op) : AllocInv (run initState ops) := by
  suffices hgen : ∀ s, AllocInv s → AllocInv (run s ops) from
    hgen initState ⟨0, 0, rfl, rfl, rfl, rfl⟩
  induction ops with
  | nil => exact fun s h => h
  | cons op rest ih => exact fun s h => ih (dispatchOp op s) (dispatchOp_AllocInv op s h)

/-- C3 (amended): over any sequence of calls from genesis, as long as the
number of assigned product ids (resp. sale codes) does not exceed `2^64`,
the assigned ids (resp. codes) are exactly `0, 1, 2, ...` — strictly
increasing from 0 with no reuse, even across removals. (Beyond `2^64`
assignments the unchecked wrapping increment reuses ids; see the
counterexample.) -/
theorem allocator_monotonic : ∀ ops : List Op,
    ((productAddedIds (run initState ops)).length ≤ U64MOD →
      productAddedIds (run initState ops) =
        List.range (productAddedIds (run initState ops)).length ∧
      List.Pairwise (· < ·) (productAddedIds (run initState ops))) ∧
    ((saleRegisteredCodes (run initState ops)).length ≤ U64MOD →
      saleRegisteredCodes (run initState ops) =
        List.range (saleRegisteredCodes (run initState ops)).length ∧
      List.Pairwise (· < ·) (saleRegisteredCodes (run initState ops))) := by
  intro ops
  obtain ⟨n, m, h1, h2, h3, h4⟩ := run_AllocInv ops
  constructor
  · intro hlen
    rw [h2] at hlen ⊢
    rw [List.length_map, List.length_range] at hlen ⊢
    have hmap : (List.range n).map wrap64 = List.range n := by
      conv_rhs => rw [← List.map_id (List.range n)]
      exact List.map_congr_left (fun a ha =>
        (Nat.mod_eq_of_lt (lt_of_lt_of_le (List.mem_range.mp ha) hlen) :
          wrap64 a = id a))
    rw [hmap]
    exact ⟨rfl, List.pairwise_lt_range n⟩
  · intro hlen
    rw [h4] at hlen ⊢
    rw [List.length_map, List.length_range] at hlen ⊢
    have hmap : (List.range m).map wrap64 = List.range m := by
      conv_rhs => rw [← List.map_id (List.range m)]
      exact List.map_congr_left (fun a ha =>
        (Nat.mod_eq_of_lt (lt_of_lt_of_le (List.mem_range.mp ha) hlen) :
          wrap64 a = id a))
    rw [hmap]
    exact ⟨rfl, List.pairwise_lt_range m⟩

/-- C3 witness: two product creations followed by two sale registrations
assign product ids `[0, 1]` and sale codes `[0, 1]` — strictly increasing
from 0. -/
theorem allocator_monotonic_witness :
    (productAddedIds (run initState [exAddOp, exAddOp, exRegisterOp, exRegisterOp]) =
      List.range (productAddedIds
        (run initState [exAddOp, exAddOp, exRegisterOp, exRegisterOp])).length ∧
      List.Pairwise (· < ·) (productAddedIds
        (run initState [exAddOp, exAddOp, exRegisterOp, exRegisterOp]))) ∧
    (saleRegisteredCodes (run initState [exAddOp, exAddOp, exRegisterOp, exRegisterOp]) =
      List.range (saleRegisteredCodes
        (run initState [exAddOp, exAddOp, exRegisterOp, exRegisterOp])).length ∧
      List.Pairwise (· < ·) (saleRegisteredCodes
        (run initState [exAddOp, exAddOp, exRegisterOp, exRegisterOp]))) :=
  ⟨(allocator_monotonic [exAddOp, exAddOp, exRegisterOp, exRegisterOp]).1 (by decide),
   (allocator_monotonic [exAddOp, exAddOp, exRegisterOp, exRegisterOp]).2 (by decide)⟩

theorem run_replicate_addOp : ∀ nrep : Nat,
    productAddedIds (run initState (List.replicate nrep exAddOp)) =
      (List.range nrep).map wrap64 ∧
    (run initState (List.replicate nrep exAddOp)).nextProductId = wrap64 nrep := by
  intro nrep
  induction nrep with
  | zero => exact ⟨rfl, rfl⟩
  | succ k ih =>
    obtain ⟨ih1, ih2⟩ := ih
    rw [List.replicate_succ']
    have hrun : run initState (List.replicate k exAddOp ++ [exAddOp]) =
        dispatchOp exAddOp (run initState (List.replicate k exAddOp)) := by
      unfold run
      rw [List.foldl_append]
      rfl
    rw [hrun]
    have hstep : ∀ t : PalletState, dispatchOp exAddOp t =
        pushEvent (Event.productAdded t.nextProductId)
          { t with
            products :=
              mapInsert t.products t.nextProductId (mkProduct t.nextProductId 5 50 10),
            nextProductId := wrap64 (t.nextProductId + 1) } :=
      fun t => rfl
    rw [hstep]
    constructor
    · rw [productAddedIds_push_added]
      show productAddedIds (run initState (List.replicate k exAddOp)) ++
          [(run initState (List.replicate k exAddOp)).nextProductId] =
        (List.range (k + 1)).map wrap64
      rw [ih1, ih2, List.range_succ, List.map_append]
      rfl
    · show wrap64 ((run initState (List.replicate k exAddOp)).nextProductId + 1) =
        wrap64 (k + 1)
      rw [ih2]
      simp only [wrap64]
      exact Nat.mod_add_mod k U64MOD 1

/-- C3 counterexample: under the wrapping `u64` increment, a sequence of
`2^64 + 1` successful `add_product` calls assigns id 0 twice — at the first
call and again at call number `2^64` — so over this sequence the assigned
ids are not the strictly-increasing, reuse-free `0, 1, 2, ...` the claim
asserts for every sequence. -/
theorem allocator_wraps_and_reuses :
    (productAddedIds (run initState (List.replicate (U64MOD + 1) exAddOp)))[U64MOD]? =
      some 0 ∧
    (productAddedIds (run initState (List.replicate (U64MOD + 1) exAddOp)))[0]? =
      some 0 ∧
    productAddedIds (run initState (List.replicate (U64MOD + 1) exAddOp)) ≠
      List.range (productAddedIds
        (run initState (List.replicate (U64MOD + 1) exAddOp))).length := by
  have hids := (run_replicate_addOp (U64MOD + 1)).1
  have hr : ∀ i n : Nat, i < n → (List.range n)[i]? = some i := by
    intro i n hi
    rw [List.getElem?_eq_getElem (by simpa using hi)]
    simp
  rw [hids]
  refine ⟨?_, ?_, ?_⟩
  · rw [List.getElem?_map, hr U64MOD (U64MOD + 1) (by omega)]
    show some (wrap64 U64MOD) = some 0
    simp [wrap64, Nat.mod_self]
  · rw [List.getElem?_map, hr 0 (U64MOD + 1) (by omega)]
    show some (wrap64 0) = some 0
    simp [wrap64, Nat.zero_mod]
  · intro hcontra
    rw [List.length_map, List.length_range] at hcontra
    have hL := congrArg (fun l => l[U64MOD]?) hcontra
    simp only at hL
    rw [List.getElem?_map, hr U64MOD (U64MOD + 1) (by omega)] at hL
    simp only [Option.map_some', wrap64, Nat.mod_self] at hL
    have hne : U64MOD ≠ 0 := by norm_num [U64MOD]
    exact hne (Option.some.inj hL).symm
